import Mathlib

/-!
Verification of the gaws signed-request dispatcher (gaws.go) against its
specification. The Go function SendAWSRequest is embedded shallowly:

- the HTTP transport is a function from the 1-based attempt counter to the
  outcome of one client.Do call plus the body read (DoResult);
- json.Unmarshal into an AWSError document is an abstract decoding function
  String -> Option AWSError (encoding/json is external to this repository);
- awsauth.Sign is an abstract transform Request -> Request (external library);
- machine state effects (which request is transmitted, which sleeps happen)
  are recorded in an event trace;
- Go byte slices are modelled as String, the nil slice as the empty string.
-/

namespace Gaws

/-- A request as handed to SendAWSRequest: method, URL, header list and body.
Signing may rewrite any of these fields (it injects headers). -/
structure Request where
  method : String
  url : String
  headers : List (String × String)
  body : String
deriving DecidableEq, Repr

/-- AWSError is the error document returned from many AWS requests.
Field `typ` embeds the Go field Type (JSON key "__type"); Type is a Lean
keyword. -/
structure AWSError where
  typ : String
  message : String
deriving DecidableEq, Repr

/-- The fixed exhaustion sentinel `exceededRetriesError` from gaws.go. -/
def exceededRetriesError : AWSError :=
  { typ := "GawsExceededMaxRetries"
    message := "The maximum number of retries for this request was exceeded." }

/-- Go: the Error() method on AWSError, fmt.Sprintf of Type and Message. -/
def AWSError.errorString (e : AWSError) : String :=
  e.typ ++ ": " ++ e.message

/-- Default value of the package variable MaxTries in gaws.go. -/
def MaxTriesDefault : Nat := 5

/-- Outcome of reading the response body with ioutil.ReadAll:
either a read failure (Go returns the bytes read so far plus a non-nil
error) or the full body. -/
inductive ReadResult where
  | failure (bytesSoFar : String)
  | ok (body : String)
deriving DecidableEq, Repr

/-- Outcome of one client.Do call. `failure` is a transport-level error
(connection refused, DNS failure, TLS failure): client.Do returns a nil
response together with a non-nil error. `response` carries the HTTP status
and the result of reading the body. -/
inductive DoResult where
  | failure
  | response (status : Nat) (readRes : ReadResult)
deriving DecidableEq, Repr

/-- The classes of non-nil Go error values SendAWSRequest can return. -/
inductive GoError where
  | readFailure
  | unmarshalFailure
  | service (e : AWSError)
deriving DecidableEq, Repr

/-- Result of the Go function: either a normal return of (body, err) --
err = none models a nil error -- or a runtime panic from dereferencing a
nil pointer. -/
inductive GoResult where
  | ret (body : String) (err : Option GoError)
  | nilDeref
deriving DecidableEq, Repr

/-- Observable events of one SendAWSRequest call: the one signing of the
request, each transmission of a request by client.Do, and each backoff
sleep (in milliseconds). -/
inductive Event where
  | signed (r : Request)
  | sent (r : Request)
  | slept (ms : Nat)
deriving DecidableEq, Repr

/-- Go: sleepDuration := time.Duration(100 * math.Pow(2.0, float64(try))),
slept in milliseconds. For the loop counters that occur (small naturals)
math.Pow(2.0, float64(try)) is exact, so the Nat value 100 * 2 ^ try is
faithful. -/
def sleepDurationMs (tryCounter : Nat) : Nat := 100 * 2 ^ tryCounter

/-- The retry loop of SendAWSRequest (gaws.go lines 39-80), with the Go
loop `for try := 1; try < MaxTries; try++` rendered as structural recursion
on `fuel = MaxTries - try`, the number of remaining iterations; `t` is the
Go counter `try` (a Lean keyword) and `lastBody` the variable lastBody.

Each iteration:
- client.Do: on a transport failure the response is nil, and the very next
  statement `defer resp.Body.Close()` evaluates resp.Body, dereferencing
  the nil pointer -- the call panics before the `if err != nil` return on
  the following line can run, so that return is unreachable on a nil
  response;
- ioutil.ReadAll failure returns the partial body and the read error;
- status < 400 returns the body with a nil error;
- otherwise json.Unmarshal decodes the body into an AWSError: a decode
  failure returns the body and the unmarshal error;
- a decoded error with Type not "Throttling" and status <= 500 is returned
  as-is; any other decoded error (throttling, or status > 500) sleeps
  100 * 2 ^ try milliseconds, sets lastBody to the body, and retries.
When the counter reaches MaxTries the loop exits and the function returns
(lastBody, exceededRetriesError). -/
def sendLoop (responses : Nat → DoResult) (unmarshal : String → Option AWSError)
    (req : Request) : Nat → Nat → String → GoResult × List Event
  | 0, _, lastBody =>
      (.ret lastBody (some (.service exceededRetriesError)), [])
  | fuel + 1, t, _ =>
      match responses t with
      | .failure => (.nilDeref, [.sent req])
      | .response status readRes =>
        match readRes with
        | .failure bytesSoFar => (.ret bytesSoFar (some .readFailure), [.sent req])
        | .ok body =>
          if status < 400 then
            (.ret body none, [.sent req])
          else
            match unmarshal body with
            | none => (.ret body (some .unmarshalFailure), [.sent req])
            | some e =>
              if e.typ ≠ "Throttling" ∧ status ≤ 500 then
                (.ret body (some (.service e)), [.sent req])
              else
                ((sendLoop responses unmarshal req fuel (t + 1) body).1,
                  .sent req :: .slept (sleepDurationMs t)
                    :: (sendLoop responses unmarshal req fuel (t + 1) body).2)

/-- SendAWSRequest (gaws.go lines 33-82): sign the request once, then run
the retry loop starting at try = 1 with lastBody = nil (the empty string)
and MaxTries - 1 remaining iterations. Every attempt transmits the one
signed request. -/
def SendAWSRequest (sign : Request → Request) (responses : Nat → DoResult)
    (unmarshal : String → Option AWSError) (maxTries : Nat) (req : Request) :
    GoResult × List Event :=
  ((sendLoop responses unmarshal (sign req) (maxTries - 1) 1 "").1,
    .signed (sign req) :: (sendLoop responses unmarshal (sign req) (maxTries - 1) 1 "").2)

/-- The retry classification the loop body implements for a completed
attempt: a response whose body was fully read, with status at least 400,
whose body decodes, and where the decoded kind is "Throttling" or the
status exceeds 500 (the negation of the return condition
Type != "Throttling" and StatusCode <= 500 on gaws.go line 69). -/
def retryable (unmarshal : String → Option AWSError) : DoResult → Bool
  | .response status (.ok body) =>
      match unmarshal body with
      | some e => decide (400 ≤ status) && (e.typ == "Throttling" || decide (500 < status))
      | none => false
  | _ => false

/-- Projection of an event trace to the requests signed in it. -/
def signedOf : Event → Option Request
  | .signed r => some r
  | _ => none

/-- Projection of an event trace to the requests transmitted in it. -/
def sentOf : Event → Option Request
  | .sent r => some r
  | _ => none

/-- Projection of an event trace to the sleep durations in it. -/
def sleptOf : Event → Option Nat
  | .slept d => some d
  | _ => none

/-- Requests signed during a call, in order. -/
def signedRequests (evs : List Event) : List Request := evs.filterMap signedOf

/-- Requests transmitted by client.Do during a call, in order; its length
is the number of send attempts. -/
def sentRequests (evs : List Event) : List Request := evs.filterMap sentOf

/-- Backoff sleep durations (milliseconds) during a call, in order. -/
def sleptDurations (evs : List Event) : List Nat := evs.filterMap sleptOf

/-! Concrete fixtures, mirroring the endpoints of gaws_test.go, used by the
closed evaluations below. The JSON braces are written with hex escapes. -/

/-- A concrete request, shaped like the canonical test request. -/
def cReq : Request :=
  { method := "GET"
    url := "https://kinesis.us-east-1.amazonaws.com"
    headers := [("Content-Type", "application/x-amz-json-1.1")]
    body := "" }

/-- A concrete signing transform: injects signature headers, as
awsauth.Sign does. -/
def cSign (r : Request) : Request :=
  { r with headers :=
      r.headers ++ [("Authorization", "AWS4-HMAC-SHA256 test-signature"),
                    ("X-Amz-Date", "20261011T000000Z")] }

/-- The throttling error body from gaws_test.go. -/
def throttleBody : String :=
  "\x7b\"__type\":\"Throttling\",\"message\":\"You have been throttled\"\x7d"

/-- The not-found error body from gaws_test.go. -/
def notFoundBody : String :=
  "\x7b\"__type\":\"NotFound\",\"message\":\"Could not find something\"\x7d"

/-- A server-error body with a non-throttling kind. -/
def serverErrBody : String :=
  "\x7b\"__type\":\"InternalFailure\",\"message\":\"boom\"\x7d"

/-- A concrete stand-in for json.Unmarshal into AWSError on the bodies the
fixtures use: the three JSON documents decode, anything else fails. -/
def cUnmarshal : String → Option AWSError := fun b =>
  if b = throttleBody then some { typ := "Throttling", message := "You have been throttled" }
  else if b = notFoundBody then some { typ := "NotFound", message := "Could not find something" }
  else if b = serverErrBody then some { typ := "InternalFailure", message := "boom" }
  else none

/-- An endpoint that always answers 200 OK. -/
def ok200 : Nat → DoResult := fun _ => .response 200 (.ok "OK")

/-- An endpoint that always answers 400 with the throttling document. -/
def alwaysThrottle : Nat → DoResult := fun _ => .response 400 (.ok throttleBody)

/-- An endpoint that always answers 500 with a non-throttling document. -/
def always500 : Nat → DoResult := fun _ => .response 500 (.ok serverErrBody)

/-- An endpoint that always answers 404 with the not-found document. -/
def notFound404 : Nat → DoResult := fun _ => .response 404 (.ok notFoundBody)

/-- An endpoint that always answers 404 with an undecodable body. -/
def notJson404 : Nat → DoResult := fun _ => .response 404 (.ok "I am not JSON!")

/-- A transport that always fails before a response is obtained. -/
def transportFail : Nat → DoResult := fun _ => .failure

/-! Lemmas about the trace projections. -/

@[simp] lemma signedRequests_nil : signedRequests [] = [] := rfl

@[simp] lemma signedRequests_signed (r : Request) (evs : List Event) :
    signedRequests (.signed r :: evs) = r :: signedRequests evs := rfl

@[simp] lemma signedRequests_sent (r : Request) (evs : List Event) :
    signedRequests (.sent r :: evs) = signedRequests evs := rfl

@[simp] lemma signedRequests_slept (d : Nat) (evs : List Event) :
    signedRequests (.slept d :: evs) = signedRequests evs := rfl

@[simp] lemma sentRequests_nil : sentRequests [] = [] := rfl

@[simp] lemma sentRequests_signed (r : Request) (evs : List Event) :
    sentRequests (.signed r :: evs) = sentRequests evs := rfl

@[simp] lemma sentRequests_sent (r : Request) (evs : List Event) :
    sentRequests (.sent r :: evs) = r :: sentRequests evs := rfl

@[simp] lemma sentRequests_slept (d : Nat) (evs : List Event) :
    sentRequests (.slept d :: evs) = sentRequests evs := rfl

@[simp] lemma sleptDurations_nil : sleptDurations [] = [] := rfl

@[simp] lemma sleptDurations_signed (r : Request) (evs : List Event) :
    sleptDurations (.signed r :: evs) = sleptDurations evs := rfl

@[simp] lemma sleptDurations_sent (r : Request) (evs : List Event) :
    sleptDurations (.sent r :: evs) = sleptDurations evs := rfl

@[simp] lemma sleptDurations_slept (d : Nat) (evs : List Event) :
    sleptDurations (.slept d :: evs) = d :: sleptDurations evs := rfl

/-! Unfolding lemmas for sendLoop, one per exit of the Go loop body. -/

lemma sendLoop_zero (responses : Nat → DoResult) (unmarshal : String → Option AWSError)
    (req : Request) (t : Nat) (lastBody : String) :
    sendLoop responses unmarshal req 0 t lastBody
      = (.ret lastBody (some (.service exceededRetriesError)), []) := rfl

lemma sendLoop_transport (responses : Nat → DoResult) (unmarshal : String → Option AWSError)
    (req : Request) (fuel t : Nat) (lastBody : String)
    (hr : responses t = .failure) :
    sendLoop responses unmarshal req (fuel + 1) t lastBody = (.nilDeref, [.sent req]) := by
  simp [sendLoop, hr]

lemma sendLoop_readFail (responses : Nat → DoResult) (unmarshal : String → Option AWSError)
    (req : Request) (fuel t : Nat) (lastBody : String) (status : Nat) (bytesSoFar : String)
    (hr : responses t = .response status (.failure bytesSoFar)) :
    sendLoop responses unmarshal req (fuel + 1) t lastBody
      = (.ret bytesSoFar (some .readFailure), [.sent req]) := by
  simp [sendLoop, hr]

lemma sendLoop_success (responses : Nat → DoResult) (unmarshal : String → Option AWSError)
    (req : Request) (fuel t : Nat) (lastBody : String) (status : Nat) (body : String)
    (hr : responses t = .response status (.ok body)) (hs : status < 400) :
    sendLoop responses unmarshal req (fuel + 1) t lastBody
      = (.ret body none, [.sent req]) := by
  simp [sendLoop, hr, hs]

lemma sendLoop_undecodable (responses : Nat → DoResult) (unmarshal : String → Option AWSError)
    (req : Request) (fuel t : Nat) (lastBody : String) (status : Nat) (body : String)
    (hr : responses t = .response status (.ok body)) (hs : 400 ≤ status)
    (hu : unmarshal body = none) :
    sendLoop responses unmarshal req (fuel + 1) t lastBody
      = (.ret body (some .unmarshalFailure), [.sent req]) := by
  have hs4 : ¬ status < 400 := by omega
  simp [sendLoop, hr, hs4, hu]

lemma sendLoop_serviceErr (responses : Nat → DoResult) (unmarshal : String → Option AWSError)
    (req : Request) (fuel t : Nat) (lastBody : String) (status : Nat) (body : String)
    (e : AWSError) (hr : responses t = .response status (.ok body)) (hs : 400 ≤ status)
    (hu : unmarshal body = some e) (hc : e.typ ≠ "Throttling" ∧ status ≤ 500) :
    sendLoop responses unmarshal req (fuel + 1) t lastBody
      = (.ret body (some (.service e)), [.sent req]) := by
  have hs4 : ¬ status < 400 := by omega
  simp [sendLoop, hr, hs4, hu, hc]

lemma sendLoop_retryStep (responses : Nat → DoResult) (unmarshal : String → Option AWSError)
    (req : Request) (fuel t : Nat) (lastBody : String) (status : Nat) (body : String)
    (e : AWSError) (hr : responses t = .response status (.ok body)) (hs : 400 ≤ status)
    (hu : unmarshal body = some e) (hc : ¬ (e.typ ≠ "Throttling" ∧ status ≤ 500)) :
    sendLoop responses unmarshal req (fuel + 1) t lastBody
      = ((sendLoop responses unmarshal req fuel (t + 1) body).1,
          .sent req :: .slept (sleepDurationMs t)
            :: (sendLoop responses unmarshal req fuel (t + 1) body).2) := by
  have hs4 : ¬ status < 400 := by omega
  simp [sendLoop, hr, hs4, hu, hc]

/-- A true retryable test unpacked into its parts. -/
lemma retryable_elim (unmarshal : String → Option AWSError) (r : DoResult)
    (h : retryable unmarshal r = true) :
    ∃ status body e, r = .response status (.ok body) ∧ 400 ≤ status ∧
      unmarshal body = some e ∧ (e.typ = "Throttling" ∨ 500 < status) := by
  match r with
  | .failure => simp [retryable] at h
  | .response status (.failure b) => simp [retryable] at h
  | .response status (.ok body) =>
    refine ⟨status, body, ?_⟩
    rcases hu : unmarshal body with _ | e
    · rw [retryable, hu] at h
      simp at h
    · rw [retryable, hu] at h
      simp only [Bool.and_eq_true, Bool.or_eq_true, decide_eq_true_eq, beq_iff_eq] at h
      exact ⟨e, rfl, h.1, rfl, h.2⟩

/-- Shape of any run's trace: the loop itself never signs, every
transmitted request is the one request it was given, and the sleep
durations are consecutive backoff values starting at the initial counter. -/
lemma sendLoop_trace_shape (responses : Nat → DoResult)
    (unmarshal : String → Option AWSError) (req : Request) :
    ∀ fuel t lastBody,
      signedRequests (sendLoop responses unmarshal req fuel t lastBody).2 = []
    ∧ (∃ n, sentRequests (sendLoop responses unmarshal req fuel t lastBody).2
          = List.replicate n req)
    ∧ (∃ n, sleptDurations (sendLoop responses unmarshal req fuel t lastBody).2
          = (List.range' t n).map sleepDurationMs) := by
  intro fuel
  induction fuel with
  | zero =>
      intro t lastBody
      rw [sendLoop_zero]
      exact ⟨rfl, ⟨0, rfl⟩, ⟨0, rfl⟩⟩
  | succ fuel ih =>
      intro t lastBody
      rcases hr : responses t with _ | ⟨status, rr⟩
      · rw [sendLoop_transport responses unmarshal req fuel t lastBody hr]
        exact ⟨rfl, ⟨1, rfl⟩, ⟨0, rfl⟩⟩
      · rcases rr with ⟨bytesSoFar⟩ | ⟨body⟩
        · rw [sendLoop_readFail responses unmarshal req fuel t lastBody status bytesSoFar hr]
          exact ⟨rfl, ⟨1, rfl⟩, ⟨0, rfl⟩⟩
        · by_cases hs : status < 400
          · rw [sendLoop_success responses unmarshal req fuel t lastBody status body hr hs]
            exact ⟨rfl, ⟨1, rfl⟩, ⟨0, rfl⟩⟩
          · have hs4 : 400 ≤ status := by omega
            rcases hu : unmarshal body with _ | e
            · rw [sendLoop_undecodable responses unmarshal req fuel t lastBody status body
                hr hs4 hu]
              exact ⟨rfl, ⟨1, rfl⟩, ⟨0, rfl⟩⟩
            · by_cases hc : e.typ ≠ "Throttling" ∧ status ≤ 500
              · rw [sendLoop_serviceErr responses unmarshal req fuel t lastBody status body e
                  hr hs4 hu hc]
                exact ⟨rfl, ⟨1, rfl⟩, ⟨0, rfl⟩⟩
              · rw [sendLoop_retryStep responses unmarshal req fuel t lastBody status body e
                  hr hs4 hu hc]
                obtain ⟨h1, ⟨n, h2⟩, ⟨m, h3⟩⟩ := ih (t + 1) body
                refine ⟨by simpa using h1, ⟨n + 1, ?_⟩, ⟨m + 1, ?_⟩⟩
                · simpa [List.replicate_succ] using h2
                · simp only [List.range'_succ, List.map_cons]
                  simpa using h3

/-- When every attempt the loop can make classifies as retryable, the loop
consumes its whole budget: it sends once per remaining iteration, sleeps
the full backoff sequence, and ends in the exhaustion error. -/
lemma sendLoop_all_retryable (responses : Nat → DoResult)
    (unmarshal : String → Option AWSError) (req : Request) :
    ∀ fuel t lastBody,
      (∀ k, t ≤ k → k < t + fuel → retryable unmarshal (responses k) = true) →
      (∃ b, (sendLoop responses unmarshal req fuel t lastBody).1
          = .ret b (some (.service exceededRetriesError)))
    ∧ sentRequests (sendLoop responses unmarshal req fuel t lastBody).2
        = List.replicate fuel req
    ∧ sleptDurations (sendLoop responses unmarshal req fuel t lastBody).2
        = (List.range' t fuel).map sleepDurationMs := by
  intro fuel
  induction fuel with
  | zero =>
      intro t lastBody _
      rw [sendLoop_zero]
      exact ⟨⟨lastBody, rfl⟩, rfl, rfl⟩
  | succ fuel ih =>
      intro t lastBody h
      have hrt := h t le_rfl (by omega)
      obtain ⟨status, body, e, hr, hs, hu, hd⟩ := retryable_elim unmarshal _ hrt
      have hc : ¬ (e.typ ≠ "Throttling" ∧ status ≤ 500) := by
        rcases hd with hd | hd
        · exact fun hx => hx.1 hd
        · exact fun hx => by omega
      rw [sendLoop_retryStep responses unmarshal req fuel t lastBody status body e hr hs hu hc]
      obtain ⟨⟨b, hb⟩, hsent, hslept⟩ :=
        ih (t + 1) body (fun k hk1 hk2 => h k (by omega) (by omega))
      refine ⟨⟨b, hb⟩, ?_, ?_⟩
      · simpa [List.replicate_succ] using hsent
      · simp only [List.range'_succ, List.map_cons]
        simpa using hslept

/-- The only way the loop returns a nil error is a fully read response with
status below 400, whose body is returned; the exit happens at some attempt
the loop actually reached. -/
lemma sendLoop_ok_exit (responses : Nat → DoResult)
    (unmarshal : String → Option AWSError) (req : Request) :
    ∀ fuel t lastBody b,
      (sendLoop responses unmarshal req fuel t lastBody).1 = .ret b none →
      ∃ k status, t ≤ k ∧ k < t + fuel
        ∧ responses k = .response status (.ok b) ∧ status < 400 := by
  intro fuel
  induction fuel with
  | zero =>
      intro t lastBody b hb
      rw [sendLoop_zero] at hb
      simp at hb
  | succ fuel ih =>
      intro t lastBody b hb
      rcases hr : responses t with _ | ⟨status, rr⟩
      · rw [sendLoop_transport responses unmarshal req fuel t lastBody hr] at hb
        simp at hb
      · rcases rr with ⟨bytesSoFar⟩ | ⟨body⟩
        · rw [sendLoop_readFail responses unmarshal req fuel t lastBody status bytesSoFar hr]
            at hb
          simp at hb
        · by_cases hs : status < 400
          · rw [sendLoop_success responses unmarshal req fuel t lastBody status body hr hs]
              at hb
            simp only [Prod.fst] at hb
            cases hb
            exact ⟨t, status, le_rfl, by omega, hr, hs⟩
          · have hs4 : 400 ≤ status := by omega
            rcases hu : unmarshal body with _ | e
            · rw [sendLoop_undecodable responses unmarshal req fuel t lastBody status body
                hr hs4 hu] at hb
              simp at hb
            · by_cases hc : e.typ ≠ "Throttling" ∧ status ≤ 500
              · rw [sendLoop_serviceErr responses unmarshal req fuel t lastBody status body e
                  hr hs4 hu hc] at hb
                simp at hb
              · rw [sendLoop_retryStep responses unmarshal req fuel t lastBody status body e
                  hr hs4 hu hc] at hb
                obtain ⟨k, st, hk1, hk2, hk3, hk4⟩ := ih (t + 1) body b hb
                exact ⟨k, st, by omega, by omega, hk3, hk4⟩

/-- C1: against the claim, a non-throttling error with status exactly 500
is NOT retried: the no-retry test on gaws.go line 69 reads
StatusCode <= 500, so a decoded non-throttling document at status 500 is
returned as the ServiceError after a single attempt, with no backoff
sleep. Evaluated at the failing input: an endpoint that always answers
500 with a decodable InternalFailure document, MaxTries 5. -/
theorem status500_nonThrottling_returned_not_retried :
    SendAWSRequest cSign always500 cUnmarshal 5 cReq
      = (.ret serverErrBody (some (.service { typ := "InternalFailure", message := "boom" })),
         [.signed (cSign cReq), .sent (cSign cReq)]) := by
  decide

/-- C2 counterexample: with the default MaxTries of 5 and an endpoint that
always answers 400 with a throttling document, SendAWSRequest makes 4 send
attempts, not the 5 the claim states: the loop for try := 1; try < MaxTries
runs MaxTries - 1 times. -/
theorem maxTries_five_yields_four_attempts :
    (sentRequests (SendAWSRequest cSign alwaysThrottle cUnmarshal 5 cReq).2).length = 4
    ∧ (sentRequests (SendAWSRequest cSign alwaysThrottle cUnmarshal 5 cReq).2).length ≠ 5 := by
  decide

/-- C2 (amended): when every attempt classifies as retryable,
SendAWSRequest makes exactly MaxTries - 1 send attempts (4 with the
default MaxTries of 5) and then returns the exhaustion error. -/
theorem exhaustion_after_maxTries_minus_one_attempts (sign : Request → Request)
    (responses : Nat → DoResult) (unmarshal : String → Option AWSError)
    (maxTries : Nat) (req : Request)
    (h : ∀ k, 1 ≤ k → k < maxTries → retryable unmarshal (responses k) = true) :
    (sentRequests (SendAWSRequest sign responses unmarshal maxTries req).2).length
        = maxTries - 1
    ∧ ∃ b, (SendAWSRequest sign responses unmarshal maxTries req).1
        = .ret b (some (.service exceededRetriesError)) := by
  obtain ⟨⟨b, hb⟩, hsent, _⟩ :=
    sendLoop_all_retryable responses unmarshal (sign req) (maxTries - 1) 1 ""
      (fun k hk1 hk2 => h k hk1 (by omega))
  constructor
  · simp [SendAWSRequest, hsent]
  · exact ⟨b, by simpa [SendAWSRequest] using hb⟩

/-- Witness for the amended C2: the always-throttling endpoint with
MaxTries 5 makes four attempts and ends in the exhaustion error. -/
theorem exhaustion_after_maxTries_minus_one_attempts_witness :
    (sentRequests (SendAWSRequest cSign alwaysThrottle cUnmarshal 5 cReq).2).length = 5 - 1
    ∧ ∃ b, (SendAWSRequest cSign alwaysThrottle cUnmarshal 5 cReq).1
        = .ret b (some (.service exceededRetriesError)) :=
  exhaustion_after_maxTries_minus_one_attempts cSign alwaysThrottle cUnmarshal 5 cReq
    (fun k hk1 hk2 =>
      (by decide : retryable cUnmarshal (.response 400 (.ok throttleBody)) = true))

/-- C3: whenever the retry budget is exhausted because every attempt was
classified retryable, the reported error is the fixed sentinel
exceededRetriesError, whose kind is "GawsExceededMaxRetries" and in
particular is never "Throttling". -/
theorem exhaustion_reports_sentinel_kind (sign : Request → Request)
    (responses : Nat → DoResult) (unmarshal : String → Option AWSError)
    (maxTries : Nat) (req : Request)
    (h : ∀ k, 1 ≤ k → k < maxTries → retryable unmarshal (responses k) = true) :
    (∃ b, (SendAWSRequest sign responses unmarshal maxTries req).1
        = .ret b (some (.service exceededRetriesError)))
    ∧ exceededRetriesError.typ = "GawsExceededMaxRetries"
    ∧ exceededRetriesError.typ ≠ "Throttling" := by
  obtain ⟨⟨b, hb⟩, _, _⟩ :=
    sendLoop_all_retryable responses unmarshal (sign req) (maxTries - 1) 1 ""
      (fun k hk1 hk2 => h k hk1 (by omega))
  exact ⟨⟨b, by simpa [SendAWSRequest] using hb⟩, by decide, by decide⟩

/-- Witness for C3 at the always-throttling endpoint with MaxTries 5. -/
theorem exhaustion_reports_sentinel_kind_witness :
    (∃ b, (SendAWSRequest cSign alwaysThrottle cUnmarshal 5 cReq).1
        = .ret b (some (.service exceededRetriesError)))
    ∧ exceededRetriesError.typ = "GawsExceededMaxRetries"
    ∧ exceededRetriesError.typ ≠ "Throttling" :=
  exhaustion_reports_sentinel_kind cSign alwaysThrottle cUnmarshal 5 cReq
    (fun k hk1 hk2 =>
      (by decide : retryable cUnmarshal (.response 400 (.ok throttleBody)) = true))

/-- C5: when the first attempt answers with status below 400 and a fully
read body, SendAWSRequest returns exactly that body with a nil error after
exactly one send attempt and no sleep; and, conversely, a nil-error return
can only arise from an attempt whose status was below 400 whose body is
the one returned -- status below 400 is the only success exit. -/
theorem success_below_400_returns_body_once (sign : Request → Request)
    (responses : Nat → DoResult) (unmarshal : String → Option AWSError)
    (maxTries : Nat) (req : Request) :
    (∀ status body, 1 < maxTries → responses 1 = .response status (.ok body) →
        status < 400 →
        SendAWSRequest sign responses unmarshal maxTries req
          = (.ret body none, [.signed (sign req), .sent (sign req)]))
    ∧ (∀ b, (SendAWSRequest sign responses unmarshal maxTries req).1 = .ret b none →
        ∃ k status, 1 ≤ k ∧ k < maxTries
          ∧ responses k = .response status (.ok b) ∧ status < 400) := by
  constructor
  · intro status body hm hr hs
    obtain ⟨m, hmeq⟩ : ∃ m, maxTries - 1 = m + 1 := ⟨maxTries - 2, by omega⟩
    rw [SendAWSRequest, hmeq,
      sendLoop_success responses unmarshal (sign req) m 1 "" status body hr hs]
  · intro b hb
    have hb1 : (sendLoop responses unmarshal (sign req) (maxTries - 1) 1 "").1
        = .ret b none := hb
    obtain ⟨k, status, hk1, hk2, hk3, hk4⟩ :=
      sendLoop_ok_exit responses unmarshal (sign req) (maxTries - 1) 1 "" b hb1
    exact ⟨k, status, hk1, by omega, hk3, hk4⟩

/-- Witness for C5 at an endpoint that always answers 200 with body OK. -/
theorem success_below_400_returns_body_once_witness :
    SendAWSRequest cSign ok200 cUnmarshal 5 cReq
      = (.ret "OK" none, [.signed (cSign cReq), .sent (cSign cReq)]) :=
  (success_below_400_returns_body_once cSign ok200 cUnmarshal 5 cReq).1
    200 "OK" (by decide) (by decide) (by decide)

/-- C6: a first-attempt response with status in [400, 500) whose body
decodes to a non-throttling document is returned verbatim as that decoded
ServiceError together with the body, after exactly one send attempt and
with no backoff sleep. -/
theorem client_error_returned_verbatim_once (sign : Request → Request)
    (responses : Nat → DoResult) (unmarshal : String → Option AWSError)
    (maxTries : Nat) (req : Request) (status : Nat) (body : String) (e : AWSError)
    (hm : 1 < maxTries) (hr : responses 1 = .response status (.ok body))
    (h4 : 400 ≤ status) (h5 : status < 500)
    (hu : unmarshal body = some e) (ht : e.typ ≠ "Throttling") :
    SendAWSRequest sign responses unmarshal maxTries req
      = (.ret body (some (.service e)), [.signed (sign req), .sent (sign req)]) := by
  obtain ⟨m, hmeq⟩ : ∃ m, maxTries - 1 = m + 1 := ⟨maxTries - 2, by omega⟩
  rw [SendAWSRequest, hmeq,
    sendLoop_serviceErr responses unmarshal (sign req) m 1 "" status body e hr h4 hu
      ⟨ht, by omega⟩]

/-- Witness for C6: the 404 NotFound endpoint of gaws_test.go yields the
decoded NotFound ServiceError after one attempt. -/
theorem client_error_returned_verbatim_once_witness :
    SendAWSRequest cSign notFound404 cUnmarshal 5 cReq
      = (.ret notFoundBody
           (some (.service { typ := "NotFound", message := "Could not find something" })),
         [.signed (cSign cReq), .sent (cSign cReq)]) :=
  client_error_returned_verbatim_once cSign notFound404 cUnmarshal 5 cReq
    404 notFoundBody { typ := "NotFound", message := "Could not find something" }
    (by decide) (by decide) (by decide) (by decide) (by decide) (by decide)

/-- C7: a response with status at least 400 whose body the decoder
rejects makes SendAWSRequest fail immediately with the decode error after
exactly one attempt; and at whatever attempt an undecodable error body
occurs, the loop stops there -- it is never retried. -/
theorem undecodable_error_body_fails_immediately (sign : Request → Request)
    (responses : Nat → DoResult) (unmarshal : String → Option AWSError)
    (maxTries : Nat) (req : Request) :
    (∀ status body, 1 < maxTries → responses 1 = .response status (.ok body) →
        400 ≤ status → unmarshal body = none →
        SendAWSRequest sign responses unmarshal maxTries req
          = (.ret body (some .unmarshalFailure), [.signed (sign req), .sent (sign req)]))
    ∧ (∀ fuel t lastBody status body,
        responses t = .response status (.ok body) → 400 ≤ status →
        unmarshal body = none →
        sendLoop responses unmarshal (sign req) (fuel + 1) t lastBody
          = (.ret body (some .unmarshalFailure), [.sent (sign req)])) := by
  constructor
  · intro status body hm hr hs hu
    obtain ⟨m, hmeq⟩ : ∃ m, maxTries - 1 = m + 1 := ⟨maxTries - 2, by omega⟩
    rw [SendAWSRequest, hmeq,
      sendLoop_undecodable responses unmarshal (sign req) m 1 "" status body hr hs hu]
  · intro fuel t lastBody status body hr hs hu
    exact sendLoop_undecodable responses unmarshal (sign req) fuel t lastBody status body
      hr hs hu

/-- Witness for C7: the 404 endpoint answering the non-JSON body of
gaws_test.go fails with the decode error after one attempt. -/
theorem undecodable_error_body_fails_immediately_witness :
    SendAWSRequest cSign notJson404 cUnmarshal 5 cReq
      = (.ret "I am not JSON!" (some .unmarshalFailure),
         [.signed (cSign cReq), .sent (cSign cReq)]) :=
  (undecodable_error_body_fails_immediately cSign notJson404 cUnmarshal 5 cReq).1
    404 "I am not JSON!" (by decide) (by decide) (by decide) (by decide)

/-- C8: against the claim, a transport-level failure is not returned to the
caller at all: client.Do yields a nil response, and the very next
statement, defer resp.Body.Close() on gaws.go line 42, dereferences that
nil pointer before the err check on line 44 can run -- the call panics.
Evaluated at the failing input: a transport that always fails, MaxTries 5. -/
theorem transport_failure_nil_dereference :
    SendAWSRequest cSign transportFail cUnmarshal 5 cReq
      = (.nilDeref, [.signed (cSign cReq), .sent (cSign cReq)]) := by
  decide

/-- C9: on every call the signing transform is applied exactly once -- the
trace holds exactly one signing event, and it precedes everything else,
in particular every transmission -- and every request transmitted by
client.Do, on the first attempt and on every retry, is that same signed
request (hence identical method, URL, headers and body across attempts). -/
theorem signed_once_same_request_every_attempt (sign : Request → Request)
    (responses : Nat → DoResult) (unmarshal : String → Option AWSError)
    (maxTries : Nat) (req : Request) :
    signedRequests (SendAWSRequest sign responses unmarshal maxTries req).2 = [sign req]
    ∧ (SendAWSRequest sign responses unmarshal maxTries req).2.head?
        = some (.signed (sign req))
    ∧ ∃ n, sentRequests (SendAWSRequest sign responses unmarshal maxTries req).2
        = List.replicate n (sign req) := by
  obtain ⟨h1, ⟨n, h2⟩, _⟩ :=
    sendLoop_trace_shape responses unmarshal (sign req) (maxTries - 1) 1 ""
  refine ⟨?_, ?_, ⟨n, ?_⟩⟩
  · simp [SendAWSRequest, h1]
  · simp [SendAWSRequest]
  · simp [SendAWSRequest, h2]

/-- C10: when MaxTries is at most 1, the loop body never runs: the request
is signed but never sent, and SendAWSRequest returns the nil body (the
empty byte slice lastBody was initialized to) together with the exhaustion
error of kind "GawsExceededMaxRetries". -/
theorem maxTries_at_most_one_sends_nothing (sign : Request → Request)
    (responses : Nat → DoResult) (unmarshal : String → Option AWSError)
    (maxTries : Nat) (req : Request) (h : maxTries ≤ 1) :
    SendAWSRequest sign responses unmarshal maxTries req
      = (.ret "" (some (.service exceededRetriesError)), [.signed (sign req)])
    ∧ exceededRetriesError.typ = "GawsExceededMaxRetries" := by
  have h0 : maxTries - 1 = 0 := by omega
  exact ⟨by rw [SendAWSRequest, h0, sendLoop_zero], by decide⟩

/-- Witness for C10 at MaxTries 1. -/
theorem maxTries_at_most_one_sends_nothing_witness :
    SendAWSRequest cSign alwaysThrottle cUnmarshal 1 cReq
      = (.ret "" (some (.service exceededRetriesError)), [.signed (cSign cReq)])
    ∧ exceededRetriesError.typ = "GawsExceededMaxRetries" :=
  maxTries_at_most_one_sends_nothing cSign alwaysThrottle cUnmarshal 1 cReq (by decide)

/-- C4: in any run of SendAWSRequest, the backoff wait recorded before the
next attempt after retry k (1-based) is 100 * 2 ^ k milliseconds: the
i-th recorded sleep (0-based) is 100 * 2 ^ (i + 1); consequently each
wait strictly exceeds the previous one, and the first wait (200 ms)
strictly exceeds the 100 ms base unit. -/
theorem backoff_doubles_and_exceeds_base (sign : Request → Request)
    (responses : Nat → DoResult) (unmarshal : String → Option AWSError)
    (maxTries : Nat) (req : Request) :
    (∀ i, i < (sleptDurations
          (SendAWSRequest sign responses unmarshal maxTries req).2).length →
        (sleptDurations (SendAWSRequest sign responses unmarshal maxTries req).2).getD i 0
          = 100 * 2 ^ (i + 1))
    ∧ (∀ i, i + 1 < (sleptDurations
          (SendAWSRequest sign responses unmarshal maxTries req).2).length →
        (sleptDurations (SendAWSRequest sign responses unmarshal maxTries req).2).getD i 0
          < (sleptDurations
              (SendAWSRequest sign responses unmarshal maxTries req).2).getD (i + 1) 0)
    ∧ (∀ d, (sleptDurations
          (SendAWSRequest sign responses unmarshal maxTries req).2).head? = some d →
        100 < d) := by
  obtain ⟨_, _, ⟨n, hsl⟩⟩ :=
    sendLoop_trace_shape responses unmarshal (sign req) (maxTries - 1) 1 ""
  have hL : sleptDurations (SendAWSRequest sign responses unmarshal maxTries req).2
      = (List.range' 1 n).map sleepDurationMs := by
    simpa [SendAWSRequest] using hsl
  have key : ∀ i, i < (sleptDurations
      (SendAWSRequest sign responses unmarshal maxTries req).2).length →
      (sleptDurations (SendAWSRequest sign responses unmarshal maxTries req).2).getD i 0
        = 100 * 2 ^ (i + 1) := by
    intro i hi
    rw [hL] at hi ⊢
    have hi2 : i < ((List.range' 1 n).map sleepDurationMs).length := hi
    rw [List.getD_eq_getElem?_getD, List.getElem?_eq_getElem hi2]
    simp only [List.getElem_map, List.getElem_range', sleepDurationMs, Option.getD_some]
    ring_nf
  refine ⟨key, ?_, ?_⟩
  · intro i hi
    rw [key i (by omega), key (i + 1) hi]
    have h2 : (2 : ℕ) ^ (i + 1 + 1) = 2 ^ (i + 1) * 2 := pow_succ 2 (i + 1)
    have hp : 0 < (2 : ℕ) ^ (i + 1) := pow_pos (by norm_num) _
    omega
  · intro d hd
    rcases n with _ | m
    · rw [hL] at hd
      simp at hd
    · rw [hL, List.range'_succ] at hd
      simp only [List.map_cons, List.head?_cons, Option.some.injEq] at hd
      have : d = sleepDurationMs 1 := hd.symm
      rw [this]
      decide

/-- Witness for C4 at the always-throttling endpoint with MaxTries 4,
whose recorded waits are 200, 400 and 800 milliseconds. -/
theorem backoff_doubles_and_exceeds_base_witness :
    (sleptDurations (SendAWSRequest cSign alwaysThrottle cUnmarshal 4 cReq).2).getD 0 0
        = 100 * 2 ^ (0 + 1)
    ∧ (sleptDurations (SendAWSRequest cSign alwaysThrottle cUnmarshal 4 cReq).2).getD 0 0
        < (sleptDurations (SendAWSRequest cSign alwaysThrottle cUnmarshal 4 cReq).2).getD 1 0
    ∧ 100 < 200 :=
  ⟨(backoff_doubles_and_exceeds_base cSign alwaysThrottle cUnmarshal 4 cReq).1
      0 (by decide),
   (backoff_doubles_and_exceeds_base cSign alwaysThrottle cUnmarshal 4 cReq).2.1
      0 (by decide),
   (backoff_doubles_and_exceeds_base cSign alwaysThrottle cUnmarshal 4 cReq).2.2
      200 (by decide)⟩

end Gaws

